import Mathlib

/-!
Verification of the `FeatureShowcase` scroll-sync component.

Shallow embedding of `src/components/feature-showcase.tsx`:
the scroll-position → active-index mapping (`onScroll`), programmatic
navigation (`scrollToIndex`, `onPrev`/`onNext`), and the rendered section
height.  Scroll offsets and section metrics are modelled as exact rationals,
indices as integers (JS number arithmetic on these quantities is exact
integer/rational arithmetic in the ranges of interest); `Math.round` is
round-half-up (toward +∞), i.e. `⌊x + 1/2⌋`.
-/

namespace FeatureShowcase

/-- The `Feature` record of the source (`type Feature = { id, title, body, image }`). -/
structure Feature where
  id : ℤ
  title : String
  body : String
  image : String
deriving Repr, DecidableEq

/-- The built-in `FEATURES` list (5 entries) that `features` defaults to. -/
def FEATURES : List Feature :=
  [ { id := 1, title := "Smart Inbox",
      body := "Automatically prioritizes important conversations so you focus on what matters first.",
      image := "/smart-inbox-screen.png" },
    { id := 2, title := "One-Tap Actions",
      body := "Archive, snooze, or delegate messages with a single tap to keep your inbox clean.",
      image := "/one-tap-actions-screen.png" },
    { id := 3, title := "AI Summaries",
      body := "Get concise summaries of long threads so you can catch up in seconds, not minutes.",
      image := "/ai-summaries-screen.png" },
    { id := 4, title := "Schedule Send",
      body := "Compose now and send later across time zones, so every message lands at the right time.",
      image := "/schedule-send-screen.png" },
    { id := 5, title := "Smart Templates",
      body := "Personalized, reusable snippets that adapt tone and context automatically.",
      image := "/smart-templates-screen.png" } ]

/-- The cached section metrics (`metricsRef.current = { startY, endY, height, viewport }`). -/
structure Metrics where
  startY : ℚ
  endY : ℚ
  height : ℚ
  viewport : ℚ
deriving Repr, DecidableEq

/-- The component state the scroll-sync logic owns: the active index
(`const [active, setActive] = React.useState(0)`) and the cached metrics. -/
structure ShowcaseState where
  active : ℤ
  metrics : Metrics
deriving Repr, DecidableEq

/-- Initial state: `React.useState(0)` with whatever metrics have been computed. -/
def initialState (m : Metrics) : ShowcaseState :=
  { active := 0, metrics := m }

/-- JavaScript `Math.round`: round half toward +∞, `⌊x + 1/2⌋`. -/
def jsRound (q : ℚ) : ℤ := ⌊q + 1 / 2⌋

/-- The scroll handler `onScroll` (feature-showcase.tsx lines 98–116).
`mounted` models the `if (!sectionRef.current) return` guard; `y` is
`window.scrollY`.  Inside the animation-frame callback: if
`y >= startY && y <= endY && endY > startY`, set the active index to
`Math.round(((y - startY) / (endY - startY)) * (total - 1))`
(the `next !== active` test only skips a redundant `setActive`, the
resulting state is the same); otherwise nothing changes. -/
def onScroll (total : ℕ) (mounted : Bool) (y : ℚ) (st : ShowcaseState) : ShowcaseState :=
  if mounted = false then st
  else
    let m := st.metrics
    if m.startY ≤ y ∧ y ≤ m.endY ∧ m.startY < m.endY then
      let progress : ℚ := (y - m.startY) / (m.endY - m.startY)
      let next : ℤ := jsRound (progress * ((total : ℚ) - 1))
      { st with active := next }
    else st

/-- The navigation entry point `scrollToIndex`
(feature-showcase.tsx lines 79–91): clamp the requested
index with `Math.max(0, Math.min(total - 1, nextIndex))`, set it as active
(`setActive(i)`), then — unless `endY <= startY` — issue
`window.scrollTo({ top: startY + t * (endY - startY) })` with
`t = total > 1 ? i / (total - 1) : 0`.  The second component is the issued
scroll target (`none` when no scroll is issued). -/
def scrollToIndex (total : ℕ) (st : ShowcaseState) (nextIndex : ℤ) :
    ShowcaseState × Option ℚ :=
  let i : ℤ := max 0 (min ((total : ℤ) - 1) nextIndex)
  let st' : ShowcaseState := { st with active := i }
  let m := st.metrics
  if m.endY ≤ m.startY then (st', none)
  else
    let t : ℚ := if 1 < total then (i : ℚ) / ((total : ℚ) - 1) else 0
    (st', some (m.startY + t * (m.endY - m.startY)))

/-- The wrapper `onPrev = () => scrollToIndex(active - 1)` (line 135). -/
def navigatePrev (total : ℕ) (st : ShowcaseState) : ShowcaseState × Option ℚ :=
  scrollToIndex total st (st.active - 1)

/-- The wrapper `onNext = () => scrollToIndex(active + 1)` (line 136). -/
def navigateNext (total : ℕ) (st : ShowcaseState) : ShowcaseState × Option ℚ :=
  scrollToIndex total st (st.active + 1)

/-- The render-time read `const current = features[active]` (line 138), as a fallible lookup:
`none` models JavaScript `undefined`. -/
def currentFeature (features : List Feature) (st : ShowcaseState) : Option Feature :=
  features[st.active.toNat]?

/-- The rendered section height in viewport-height units:
`style={{ height: `${Math.max(1, total) * 100}vh` }}` (line 144). -/
def sectionHeightVh (total : ℕ) : ℕ :=
  max 1 total * 100

/-! Helper lemmas. -/

/-- The embedded `Math.round` agrees with Mathlib's round-half-up `round`. -/
lemma jsRound_eq_round (q : ℚ) : jsRound q = round q :=
  (round_eq q).symm

/-- Rounding fixes integers. -/
lemma jsRound_intCast (i : ℤ) : jsRound (i : ℚ) = i := by
  rw [jsRound_eq_round, round_intCast]

/-- Rounding a nonnegative value is nonnegative. -/
lemma jsRound_nonneg {q : ℚ} (h : 0 ≤ q) : 0 ≤ jsRound q := by
  rw [jsRound]
  exact Int.le_floor.mpr (by push_cast; linarith)

/-- Rounding never overshoots an integer upper bound. -/
lemma jsRound_le {q : ℚ} {B : ℤ} (h : q ≤ (B : ℚ)) : jsRound q ≤ B := by
  rw [jsRound]
  have h1 : ⌊q + 1 / 2⌋ ≤ ⌊(B : ℚ) + 1 / 2⌋ := Int.floor_mono (by linarith)
  have h2 : ⌊(B : ℚ) + 1 / 2⌋ = B := by
    rw [Int.floor_eq_iff]
    refine ⟨le_add_of_nonneg_right (by norm_num), ?_⟩
    linarith
  omega

/-- Unfolding `onScroll` when mounted and the offset is strictly inside the
non-degenerate range. -/
lemma onScroll_inRange (total : ℕ) (st : ShowcaseState) (y : ℚ)
    (h1 : st.metrics.startY ≤ y) (h2 : y ≤ st.metrics.endY)
    (h3 : st.metrics.startY < st.metrics.endY) :
    onScroll total true y st =
      { st with active := jsRound ((y - st.metrics.startY) /
          (st.metrics.endY - st.metrics.startY) * ((total : ℚ) - 1)) } := by
  unfold onScroll
  simp [h1, h2, h3]

/-- Unfolding `onScroll` when the guard fails: no state change. -/
lemma onScroll_guardFail (total : ℕ) (mounted : Bool) (st : ShowcaseState) (y : ℚ)
    (h : mounted = false ∨
      ¬(st.metrics.startY ≤ y ∧ y ≤ st.metrics.endY ∧
        st.metrics.startY < st.metrics.endY)) :
    onScroll total mounted y st = st := by
  unfold onScroll
  rcases h with h | h
  · simp [h]
  · rcases Bool.eq_false_or_eq_true mounted with hm | hm <;> simp [hm, h]

/-- Rounding zero gives zero. -/
lemma jsRound_zero : jsRound 0 = 0 := by
  norm_num [jsRound]

/-- Running `onScroll` at the offset `startY + t * (endY - startY)` with
`t ∈ [0,1]` lands on `round (t * (total - 1))`. -/
lemma onScroll_at_t (total : ℕ) (st : ShowcaseState) (t : ℚ)
    (ht0 : 0 ≤ t) (ht1 : t ≤ 1)
    (hm : st.metrics.startY < st.metrics.endY) :
    (onScroll total true
        (st.metrics.startY + t * (st.metrics.endY - st.metrics.startY))
        st).active =
      jsRound (t * ((total : ℚ) - 1)) := by
  have hes : (0 : ℚ) < st.metrics.endY - st.metrics.startY := sub_pos.mpr hm
  have hy1 : st.metrics.startY ≤
      st.metrics.startY + t * (st.metrics.endY - st.metrics.startY) := by
    nlinarith
  have hy2 : st.metrics.startY + t * (st.metrics.endY - st.metrics.startY) ≤
      st.metrics.endY := by
    nlinarith
  rw [onScroll_inRange total st _ hy1 hy2 hm]
  have hprog : (st.metrics.startY + t * (st.metrics.endY - st.metrics.startY) -
      st.metrics.startY) / (st.metrics.endY - st.metrics.startY) = t := by
    field_simp
  show jsRound _ = _
  rw [hprog]

/-- The state component of `scrollToIndex`: the clamped index is set,
whatever the metrics say. -/
lemma scrollToIndex_fst (total : ℕ) (st : ShowcaseState) (n : ℤ) :
    (scrollToIndex total st n).1 =
      { st with active := max 0 (min ((total : ℤ) - 1) n) } := by
  unfold scrollToIndex
  by_cases h : st.metrics.endY ≤ st.metrics.startY <;> simp [h]

end FeatureShowcase

namespace FeatureShowcase

/-! Theorems for the specification claims. -/

/-- C1: mounted and with `sectionStart <= y <= sectionEnd` and
`sectionEnd > sectionStart`, `onScroll` sets the active index to
`round(((y - sectionStart) / (sectionEnd - sectionStart)) * (total - 1))`;
in particular for `total = 5`, `y = sectionStart` yields index 0 and
`y = sectionEnd` yields index 4. -/
theorem onScroll_active_formula (total : ℕ) (st : ShowcaseState) (y : ℚ)
    (h1 : st.metrics.startY ≤ y) (h2 : y ≤ st.metrics.endY)
    (h3 : st.metrics.startY < st.metrics.endY) :
    (onScroll total true y st).active =
      jsRound ((y - st.metrics.startY) / (st.metrics.endY - st.metrics.startY) *
        ((total : ℚ) - 1)) ∧
    (onScroll 5 true st.metrics.startY st).active = 0 ∧
    (onScroll 5 true st.metrics.endY st).active = 4 := by
  refine ⟨?_, ?_, ?_⟩
  · rw [onScroll_inRange total st y h1 h2 h3]
  · rw [onScroll_inRange 5 st st.metrics.startY le_rfl (le_of_lt h3) h3]
    norm_num [jsRound]
  · rw [onScroll_inRange 5 st st.metrics.endY (le_of_lt h3) le_rfl h3]
    have hne : st.metrics.endY - st.metrics.startY ≠ 0 := by linarith
    show jsRound _ = 4
    rw [div_self hne]
    norm_num [jsRound]

theorem onScroll_active_formula_witness :
    (onScroll 5 true 3 (initialState ⟨0, 4, 0, 0⟩)).active = 3 ∧
    (onScroll 5 true 0 (initialState ⟨0, 4, 0, 0⟩)).active = 0 ∧
    (onScroll 5 true 4 (initialState ⟨0, 4, 0, 0⟩)).active = 4 := by
  have h := onScroll_active_formula 5 (initialState ⟨0, 4, 0, 0⟩) 3
    (by norm_num [initialState]) (by norm_num [initialState])
    (by norm_num [initialState])
  refine ⟨?_, h.2.1, h.2.2⟩
  rw [h.1]
  norm_num [initialState, jsRound]

/-- C2: for every integer `targetIndex` (also out of range), `scrollToIndex`
sets the active index to the clamp `max 0 (min (total - 1) targetIndex)`,
and this update is independent of the metrics, hence of whether a scroll is
issued. -/
theorem scrollToIndex_clamps (total : ℕ) (st : ShowcaseState) (n : ℤ)
    (m' : Metrics) :
    ((scrollToIndex total st n).1).active = max 0 (min ((total : ℤ) - 1) n) ∧
    ((scrollToIndex total st n).1).active =
      ((scrollToIndex total { st with metrics := m' } n).1).active := by
  rw [scrollToIndex_fst, scrollToIndex_fst]
  exact ⟨rfl, rfl⟩

/-- C7: whenever the offset is outside `[sectionStart, sectionEnd]`, the
range is degenerate, or the component is unmounted, `onScroll` changes
nothing — neither the active index nor the cached metrics. -/
theorem onScroll_frame (total : ℕ) (mounted : Bool) (st : ShowcaseState) (y : ℚ)
    (h : mounted = false ∨ y < st.metrics.startY ∨ st.metrics.endY < y ∨
      st.metrics.endY ≤ st.metrics.startY) :
    onScroll total mounted y st = st := by
  apply onScroll_guardFail
  rcases h with h | h | h | h
  · exact Or.inl h
  · exact Or.inr (fun hc => absurd hc.1 (not_le.mpr h))
  · exact Or.inr (fun hc => absurd hc.2.1 (not_le.mpr h))
  · exact Or.inr (fun hc => absurd hc.2.2 (not_lt.mpr h))

theorem onScroll_frame_witness :
    onScroll 5 true 7 (initialState ⟨0, 4, 0, 0⟩) = initialState ⟨0, 4, 0, 0⟩ := by
  exact onScroll_frame 5 true (initialState ⟨0, 4, 0, 0⟩) 7
    (Or.inr (Or.inr (Or.inl (by norm_num [initialState]))))

end FeatureShowcase

namespace FeatureShowcase

/-- C3: for every valid index `i` and non-degenerate metrics,
`scrollToIndex` issues a scroll to
`sectionStart + (i / (total - 1)) * (sectionEnd - sectionStart)`
(the factor taken as 0 when `total = 1`), and `onScroll` at exactly that
offset reproduces active index `i`. -/
theorem navigateTo_onScroll_roundtrip (total : ℕ) (st : ShowcaseState) (i : ℤ)
    (h0 : 0 ≤ i) (h1 : i ≤ (total : ℤ) - 1)
    (hm : st.metrics.startY < st.metrics.endY) :
    (scrollToIndex total st i).2 =
      some (st.metrics.startY +
        (if 1 < total then (i : ℚ) / ((total : ℚ) - 1) else 0) *
        (st.metrics.endY - st.metrics.startY)) ∧
    (onScroll total true
      (st.metrics.startY +
        (if 1 < total then (i : ℚ) / ((total : ℚ) - 1) else 0) *
        (st.metrics.endY - st.metrics.startY)) st).active = i := by
  constructor
  · simp only [scrollToIndex, min_eq_right h1, max_eq_right h0,
      if_neg (not_le.mpr hm)]
  · by_cases ht : 1 < total
    · have hTQ : (0 : ℚ) < (total : ℚ) - 1 := by
        have h2 : (2 : ℕ) ≤ total := ht
        have h2Q : (2 : ℚ) ≤ (total : ℚ) := by exact_mod_cast h2
        linarith
      have hiQ0 : (0 : ℚ) ≤ (i : ℚ) := by exact_mod_cast h0
      have hiQ1 : (i : ℚ) ≤ (total : ℚ) - 1 := by
        exact_mod_cast h1
      rw [if_pos ht,
        onScroll_at_t total st ((i : ℚ) / ((total : ℚ) - 1))
          (div_nonneg hiQ0 (le_of_lt hTQ)) ((div_le_one hTQ).mpr hiQ1) hm,
        div_mul_cancel₀ _ (ne_of_gt hTQ), jsRound_intCast]
    · have htot1 : total = 1 := by
        have hT : (1 : ℤ) ≤ (total : ℤ) := by omega
        have : total ≤ 1 := not_lt.mp ht
        omega
      subst htot1
      have hi : i = 0 := by omega
      subst hi
      rw [if_neg ht, onScroll_at_t 1 st 0 le_rfl zero_le_one hm]
      norm_num [jsRound]

theorem navigateTo_onScroll_roundtrip_witness :
    (scrollToIndex 5 (initialState ⟨0, 4, 0, 0⟩) 3).2 =
      some ((initialState ⟨0, 4, 0, 0⟩).metrics.startY +
        (if 1 < 5 then ((3 : ℤ) : ℚ) / ((5 : ℚ) - 1) else 0) *
        ((initialState ⟨0, 4, 0, 0⟩).metrics.endY -
          (initialState ⟨0, 4, 0, 0⟩).metrics.startY)) ∧
    (onScroll 5 true
      ((initialState ⟨0, 4, 0, 0⟩).metrics.startY +
        (if 1 < 5 then ((3 : ℤ) : ℚ) / ((5 : ℚ) - 1) else 0) *
        ((initialState ⟨0, 4, 0, 0⟩).metrics.endY -
          (initialState ⟨0, 4, 0, 0⟩).metrics.startY))
      (initialState ⟨0, 4, 0, 0⟩)).active = 3 := by
  have h := navigateTo_onScroll_roundtrip 5 (initialState ⟨0, 4, 0, 0⟩) 3
    (by norm_num) (by norm_num) (by norm_num [initialState])
  exact_mod_cast h

/-- C5: the rounding in `index = round(progress * (total - 1))` is
round-half-up: at an exact half `k + 1/2` the handler selects `k + 1`;
and for `total = 5` the midpoint offset yields active index 2. -/
theorem onScroll_round_half_up (total : ℕ) (st : ShowcaseState) (y : ℚ) (k : ℤ)
    (h1 : st.metrics.startY ≤ y) (h2 : y ≤ st.metrics.endY)
    (h3 : st.metrics.startY < st.metrics.endY)
    (htie : (y - st.metrics.startY) / (st.metrics.endY - st.metrics.startY) *
      ((total : ℚ) - 1) = (k : ℚ) + 1 / 2) :
    (onScroll total true y st).active = k + 1 ∧
    (onScroll 5 true (st.metrics.startY +
      1 / 2 * (st.metrics.endY - st.metrics.startY)) st).active = 2 := by
  constructor
  · rw [onScroll_inRange total st y h1 h2 h3]
    show jsRound _ = k + 1
    rw [htie]
    have hcast : (k : ℚ) + 1 / 2 + 1 / 2 = ((k + 1 : ℤ) : ℚ) := by
      push_cast
      ring
    rw [jsRound, hcast, Int.floor_intCast]
  · rw [onScroll_at_t 5 st (1 / 2) (by norm_num) (by norm_num) h3]
    norm_num [jsRound]

theorem onScroll_round_half_up_witness :
    (onScroll 5 true 3 (initialState ⟨0, 8, 0, 0⟩)).active = 1 + 1 ∧
    (onScroll 5 true ((initialState ⟨0, 8, 0, 0⟩).metrics.startY +
      1 / 2 * ((initialState ⟨0, 8, 0, 0⟩).metrics.endY -
        (initialState ⟨0, 8, 0, 0⟩).metrics.startY)) (initialState ⟨0, 8, 0, 0⟩)).active = 2 := by
  exact onScroll_round_half_up 5 (initialState ⟨0, 8, 0, 0⟩) 3 1
    (by norm_num [initialState]) (by norm_num [initialState])
    (by norm_num [initialState]) (by norm_num [initialState])

end FeatureShowcase

namespace FeatureShowcase

/-- C4: starting from the initial value 0 and under every operation
(`onScroll`, `scrollToIndex`, `navigatePrev`, `navigateNext`), the active
index stays a valid index into the (non-empty) feature list:
`0 ≤ active ≤ total - 1`. -/
theorem activeIndex_invariant (total : ℕ) (st : ShowcaseState) (mounted : Bool)
    (y : ℚ) (n : ℤ) (m : Metrics)
    (htotal : 1 ≤ total) (ha0 : 0 ≤ st.active)
    (ha1 : st.active ≤ (total : ℤ) - 1) :
    (0 ≤ (initialState m).active ∧ (initialState m).active ≤ (total : ℤ) - 1) ∧
    (0 ≤ (onScroll total mounted y st).active ∧
      (onScroll total mounted y st).active ≤ (total : ℤ) - 1) ∧
    (0 ≤ ((scrollToIndex total st n).1).active ∧
      ((scrollToIndex total st n).1).active ≤ (total : ℤ) - 1) ∧
    (0 ≤ ((navigatePrev total st).1).active ∧
      ((navigatePrev total st).1).active ≤ (total : ℤ) - 1) ∧
    (0 ≤ ((navigateNext total st).1).active ∧
      ((navigateNext total st).1).active ≤ (total : ℤ) - 1) := by
  have hT : (1 : ℤ) ≤ (total : ℤ) := by exact_mod_cast htotal
  have hcl : ∀ k : ℤ, 0 ≤ max 0 (min ((total : ℤ) - 1) k) ∧
      max 0 (min ((total : ℤ) - 1) k) ≤ (total : ℤ) - 1 := by
    intro k
    exact ⟨le_max_left _ _, max_le (by omega) (min_le_left _ _)⟩
  have hscroll : 0 ≤ (onScroll total mounted y st).active ∧
      (onScroll total mounted y st).active ≤ (total : ℤ) - 1 := by
    rcases Bool.eq_false_or_eq_true mounted with hb | hb
    · subst hb
      by_cases hin : st.metrics.startY ≤ y ∧ y ≤ st.metrics.endY ∧
          st.metrics.startY < st.metrics.endY
      · rw [onScroll_inRange total st y hin.1 hin.2.1 hin.2.2]
        have hes : (0 : ℚ) < st.metrics.endY - st.metrics.startY :=
          sub_pos.mpr hin.2.2
        have hp0 : (0 : ℚ) ≤
            (y - st.metrics.startY) / (st.metrics.endY - st.metrics.startY) :=
          div_nonneg (by linarith [hin.1]) (le_of_lt hes)
        have hp1 :
            (y - st.metrics.startY) / (st.metrics.endY - st.metrics.startY) ≤ 1 :=
          (div_le_one hes).mpr (by linarith [hin.2.1])
        have hTQ : (0 : ℚ) ≤ (total : ℚ) - 1 := by
          have h1Q : (1 : ℚ) ≤ (total : ℚ) := by exact_mod_cast htotal
          linarith
        constructor
        · exact jsRound_nonneg (mul_nonneg hp0 hTQ)
        · apply jsRound_le
          push_cast
          exact mul_le_of_le_one_left hTQ hp1
      · rw [onScroll_guardFail total true st y (Or.inr hin)]
        exact ⟨ha0, ha1⟩
    · rw [onScroll_guardFail total mounted st y (Or.inl hb)]
      exact ⟨ha0, ha1⟩
  refine ⟨⟨le_rfl, ?_⟩, hscroll, ?_, ?_, ?_⟩
  · show (0 : ℤ) ≤ (total : ℤ) - 1
    omega
  · rw [scrollToIndex_fst]
    exact hcl n
  · unfold navigatePrev
    rw [scrollToIndex_fst]
    exact hcl _
  · unfold navigateNext
    rw [scrollToIndex_fst]
    exact hcl _

theorem activeIndex_invariant_witness :
    (0 ≤ (initialState ⟨0, 0, 0, 0⟩).active ∧
      (initialState ⟨0, 0, 0, 0⟩).active ≤ ((5 : ℕ) : ℤ) - 1) ∧
    (0 ≤ (onScroll 5 true 1 ⟨2, ⟨0, 4, 0, 0⟩⟩).active ∧
      (onScroll 5 true 1 ⟨2, ⟨0, 4, 0, 0⟩⟩).active ≤ ((5 : ℕ) : ℤ) - 1) ∧
    (0 ≤ ((scrollToIndex 5 ⟨2, ⟨0, 4, 0, 0⟩⟩ 10).1).active ∧
      ((scrollToIndex 5 ⟨2, ⟨0, 4, 0, 0⟩⟩ 10).1).active ≤ ((5 : ℕ) : ℤ) - 1) ∧
    (0 ≤ ((navigatePrev 5 ⟨2, ⟨0, 4, 0, 0⟩⟩).1).active ∧
      ((navigatePrev 5 ⟨2, ⟨0, 4, 0, 0⟩⟩).1).active ≤ ((5 : ℕ) : ℤ) - 1) ∧
    (0 ≤ ((navigateNext 5 ⟨2, ⟨0, 4, 0, 0⟩⟩).1).active ∧
      ((navigateNext 5 ⟨2, ⟨0, 4, 0, 0⟩⟩).1).active ≤ ((5 : ℕ) : ℤ) - 1) :=
  activeIndex_invariant 5 ⟨2, ⟨0, 4, 0, 0⟩⟩ true 1 10 ⟨0, 0, 0, 0⟩
    (by norm_num) (by norm_num) (by norm_num)

/-- C6: with a single feature (`total = 1`), `onScroll` keeps the active
index at 0 for every scroll position, and every navigation call
(`scrollToIndex`, `navigatePrev`, `navigateNext`) leaves the state
unchanged. -/
theorem single_feature_noop (st : ShowcaseState) (mounted : Bool) (y : ℚ)
    (n : ℤ) (h : st.active = 0) :
    (onScroll 1 mounted y st).active = 0 ∧
    (scrollToIndex 1 st n).1 = st ∧
    (navigatePrev 1 st).1 = st ∧
    (navigateNext 1 st).1 = st := by
  have hfix : ∀ k : ℤ, (scrollToIndex 1 st k).1 = st := by
    intro k
    rw [scrollToIndex_fst]
    have hle : min (((1 : ℕ) : ℤ) - 1) k ≤ 0 :=
      le_trans (min_le_left _ _) (by norm_num)
    rw [max_eq_left hle, ← h]
  have hon : (onScroll 1 mounted y st).active = 0 := by
    rcases Bool.eq_false_or_eq_true mounted with hb | hb
    · subst hb
      by_cases hin : st.metrics.startY ≤ y ∧ y ≤ st.metrics.endY ∧
          st.metrics.startY < st.metrics.endY
      · rw [onScroll_inRange 1 st y hin.1 hin.2.1 hin.2.2]
        show jsRound _ = 0
        have hc : ((1 : ℕ) : ℚ) - 1 = 0 := by norm_num
        rw [hc, mul_zero, jsRound_zero]
      · rw [onScroll_guardFail 1 true st y (Or.inr hin)]
        exact h
    · rw [onScroll_guardFail 1 mounted st y (Or.inl hb)]
      exact h
  exact ⟨hon, hfix n, hfix _, hfix _⟩

theorem single_feature_noop_witness :
    (onScroll 1 true 5 (⟨0, ⟨0, 0, 0, 0⟩⟩ : ShowcaseState)).active = 0 ∧
    (scrollToIndex 1 (⟨0, ⟨0, 0, 0, 0⟩⟩ : ShowcaseState) 7).1 = ⟨0, ⟨0, 0, 0, 0⟩⟩ ∧
    (navigatePrev 1 (⟨0, ⟨0, 0, 0, 0⟩⟩ : ShowcaseState)).1 = ⟨0, ⟨0, 0, 0, 0⟩⟩ ∧
    (navigateNext 1 (⟨0, ⟨0, 0, 0, 0⟩⟩ : ShowcaseState)).1 = ⟨0, ⟨0, 0, 0, 0⟩⟩ :=
  single_feature_noop ⟨0, ⟨0, 0, 0, 0⟩⟩ true 5 7 rfl

/-- C8: `navigatePrev` and `navigateNext` are exactly
`scrollToIndex (active - 1)` and `scrollToIndex (active + 1)`, and at the
boundaries (`active = 0`, resp. `active = total - 1`) they leave the state
unchanged. -/
theorem navigate_wrappers_boundary (total : ℕ) (st : ShowcaseState)
    (h : 1 ≤ total) :
    navigatePrev total st = scrollToIndex total st (st.active - 1) ∧
    navigateNext total st = scrollToIndex total st (st.active + 1) ∧
    (st.active = 0 → (navigatePrev total st).1 = st) ∧
    (st.active = (total : ℤ) - 1 → (navigateNext total st).1 = st) := by
  have hT : (1 : ℤ) ≤ (total : ℤ) := by exact_mod_cast h
  refine ⟨rfl, rfl, ?_, ?_⟩
  · intro h0
    show (scrollToIndex total st (st.active - 1)).1 = st
    rw [scrollToIndex_fst, h0, min_eq_right (by omega : (0 : ℤ) - 1 ≤ (total : ℤ) - 1),
      max_eq_left (by omega : (0 : ℤ) - 1 ≤ 0), ← h0]
  · intro hend
    show (scrollToIndex total st (st.active + 1)).1 = st
    rw [scrollToIndex_fst, hend,
      min_eq_left (by omega : (total : ℤ) - 1 ≤ (total : ℤ) - 1 + 1),
      max_eq_right (by omega : (0 : ℤ) ≤ (total : ℤ) - 1), ← hend]

theorem navigate_wrappers_boundary_witness :
    (navigatePrev 1 (⟨0, ⟨0, 3, 0, 0⟩⟩ : ShowcaseState)).1 = ⟨0, ⟨0, 3, 0, 0⟩⟩ ∧
    (navigateNext 1 (⟨0, ⟨0, 3, 0, 0⟩⟩ : ShowcaseState)).1 = ⟨0, ⟨0, 3, 0, 0⟩⟩ := by
  have hw := navigate_wrappers_boundary 1 ⟨0, ⟨0, 3, 0, 0⟩⟩ (by norm_num)
  exact ⟨hw.2.2.1 rfl, hw.2.2.2 (by norm_num)⟩

/-- C9 counterexample: the rendered height is `max 1 total * 100` vh, so for
an empty feature list (`total = 0`) it is 100 vh, not `0 * 100` vh as the
claim states. -/
theorem sectionHeight_claim_cex : sectionHeightVh 0 ≠ 0 * 100 := by
  decide

/-- C9 (amended): for every non-empty feature list the rendered section
height is `total * 100` viewport-heights; for `total = 0` the code clamps
the factor to 1, rendering 100 vh. -/
theorem sectionHeight_eq_total_mul (total : ℕ) (h : 1 ≤ total) :
    sectionHeightVh total = total * 100 := by
  unfold sectionHeightVh
  rw [max_eq_right h]

theorem sectionHeight_eq_total_mul_witness :
    sectionHeightVh FEATURES.length = FEATURES.length * 100 :=
  sectionHeight_eq_total_mul FEATURES.length (by decide)

/-- C10: with an empty feature list (`total = 0`), any `scrollToIndex` call
clamps to active index 0, which is not a valid index into the empty list,
and the rendered `features[active]` lookup yields `undefined` (`none`):
the component presupposes a non-empty feature list. -/
theorem empty_features_invalid_index (st : ShowcaseState) (n : ℤ) :
    ((scrollToIndex 0 st n).1).active = 0 ∧
    ¬ (((scrollToIndex 0 st n).1).active.toNat < ([] : List Feature).length) ∧
    currentFeature [] ((scrollToIndex 0 st n).1) = none := by
  have h : ((scrollToIndex 0 st n).1).active = 0 := by
    rw [scrollToIndex_fst]
    have hle : min (((0 : ℕ) : ℤ) - 1) n ≤ 0 :=
      le_trans (min_le_left _ _) (by norm_num)
    exact max_eq_left hle
  refine ⟨h, ?_, ?_⟩
  · simp
  · unfold currentFeature
    simp

end FeatureShowcase
